import Mathlib

/-!
Verification of the arXiv paper assistant's retrieval and merge pipeline.

Shallow embedding of `arxiv_assistant.py`. The pipeline under study:

* `search_arxiv_papers` (lines 24-106): builds a query, performs a single
  HTTP GET, parses the XML feed, and normalizes each entry into a paper
  record, keeping only entries whose publication date equals the target
  date. `requests.exceptions.RequestException` (connection errors and
  `raise_for_status` HTTP errors) and `ET.ParseError` are caught and turn
  into an empty result list; every other exception propagates.
* `process_with_openai` (lines 109-127): formats a prompt, calls the
  OpenAI API, and returns the stripped result; any exception is caught and
  turned into `None`.
* the `__main__` merge loop (lines 200-226): iterates over the configured
  search terms, enriches each fetched paper with two AI calls, and stores
  it in the dict `all_papers` keyed by `paper['arxiv_id']`.

Network, XML parsing and the AI service are external: they are modelled as
oracles (`FetchResult`-valued and `Option String`-valued functions) passed
to the embedded functions. Python exceptions that the code does not catch
are modelled with `Except PyError`.
-/

/-- The Python exceptions that can escape the entry-processing loop of
`search_arxiv_papers` (none of them is caught by its handlers, which only
catch `RequestException` and `ET.ParseError`). -/
inductive PyError where
  /-- `AttributeError`: calling `.text` on the `None` returned by
  `Element.find` for a missing child, or `.strip()` on a `None` text. -/
  | attributeError
  /-- `TypeError`: `datetime.strptime(None, fmt)`. -/
  | typeError
  /-- `ValueError`: `datetime.strptime` on a string not matching the format. -/
  | valueError
deriving DecidableEq, Repr

/-- One raw `<entry>` element of the Atom feed, as seen through the
ElementTree calls the source makes.  Each textual child is
`Option (Option String)`: `none` = the child element is absent
(`find` returns `None`), `some none` = the element is present but empty
(`.text` is `None`), `some (some s)` = the element has text `s`. -/
structure RawEntry where
  /-- `./atom:published` -/
  published : Option (Option String)
  /-- `./atom:title` -/
  title : Option (Option String)
  /-- `./atom:summary` -/
  summary : Option (Option String)
  /-- `./atom:id` -/
  idUrl : Option (Option String)
  /-- the `./atom:name` child of each `./atom:author` element -/
  authors : List (Option (Option String))
  /-- the `term` attribute of each `./atom:category` element
  (`Element.get` returns `None`, never raises, when absent) -/
  categories : List (Option String)
  /-- `./arxiv:comment` -/
  comment : Option (Option String)
deriving DecidableEq, Repr

/-- The paper dict built at lines 87-96, including the two enrichment keys
added by the `__main__` loop at lines 210-224 (`none` until then). -/
structure Paper where
  title : String
  authors : List String
  url : String
  arxiv_id : String
  pub_date : String
  summary : String
  categories : List (Option String)
  comments : Option String
  summary_zh : Option String
  contribution : Option String
deriving DecidableEq, Repr

/-- Outcome of one HTTP attempt of `requests.get` + `raise_for_status` +
`ET.fromstring` + `findall('.//atom:entry')`, as an oracle value:
`transportError` = `requests.exceptions.RequestException` (connection
failure, timeout, or non-success status via `raise_for_status`),
`parseError` = `ET.ParseError` from `fromstring`, `ok entries` = the
parsed list of entry elements. -/
inductive FetchResult where
  | transportError
  | parseError
  | ok (entries : List RawEntry)
deriving DecidableEq, Repr

/-- ASCII whitespace, the characters removed by Python's `str.strip()` on
the feed's text content. -/
def isSpaceChar (c : Char) : Bool :=
  c == ' ' || c == '\t' || c == '\n' || c == '\r' || c == '\x0b' || c == '\x0c'

/-- Python `s.strip()`: remove leading and trailing whitespace. -/
def pyStrip (s : String) : String :=
  String.mk ((((s.toList.dropWhile isSpaceChar).reverse).dropWhile isSpaceChar).reverse)

/-- Split a character list at every occurrence of `sep`; always returns a
non-empty list of chunks (Python `str.split(sep)` semantics). -/
def splitChars (sep : Char) : List Char → List (List Char)
  | [] => [[]]
  | c :: rest =>
    let r := splitChars sep rest
    if c == sep then [] :: r
    else
      match r with
      | [] => [[c]]
      | h :: t => (c :: h) :: t

/-- Python `s.split(sep)` for a one-character separator. -/
def pySplit (s : String) (sep : Char) : List String :=
  (splitChars sep s.toList).map String.mk

/-- `Element.find(path).text`: raises `AttributeError` when the child is
absent, otherwise yields the text (which may be `None`). -/
def findText (f : Option (Option String)) : Except PyError (Option String) :=
  match f with
  | none => .error .attributeError
  | some t => .ok t

/-- `Element.find(path).text.strip()`: raises `AttributeError` when the
child is absent or its text is `None`, otherwise yields the trimmed text. -/
def findTextStrip (f : Option (Option String)) : Except PyError String :=
  match f with
  | none => .error .attributeError
  | some none => .error .attributeError
  | some (some s) => .ok (pyStrip s)

/-- Numeric value of a digit character. -/
def digitVal (c : Char) : Nat := c.toNat - 48

/-- Gregorian leap-year test, as used by Python's `datetime`. -/
def isLeapYear (y : Nat) : Bool := (y % 4 == 0 && y % 100 != 0) || y % 400 == 0

/-- Days in a month, as validated by Python's `datetime` constructor. -/
def daysInMonth (y m : Nat) : Nat :=
  if m == 2 then (if isLeapYear y then 29 else 28)
  else if m == 4 || m == 6 || m == 9 || m == 11 then 30
  else 31

/-- Model of `datetime.strptime(s, "%Y-%m-%dT%H:%M:%SZ").strftime("%Y-%m-%d")`
for the canonical fixed-width timestamps of the Atom feed: the string must
be exactly `YYYY-MM-DDTHH:MM:SSZ` with in-range fields, and the result is
its 10-character date prefix; `none` models the `ValueError` raised on any
other input. -/
def parsePubDate (s : String) : Option String :=
  match s.toList with
  | [y1, y2, y3, y4, '-', m1, m2, '-', d1, d2, 'T',
     h1, h2, ':', n1, n2, ':', s1, s2, 'Z'] =>
    if [y1, y2, y3, y4, m1, m2, d1, d2, h1, h2, n1, n2, s1, s2].all Char.isDigit then
      let year := ((digitVal y1 * 10 + digitVal y2) * 10 + digitVal y3) * 10 + digitVal y4
      let month := digitVal m1 * 10 + digitVal m2
      let day := digitVal d1 * 10 + digitVal d2
      let hour := digitVal h1 * 10 + digitVal h2
      let minute := digitVal n1 * 10 + digitVal n2
      let second := digitVal s1 * 10 + digitVal s2
      if 1 ≤ month && month ≤ 12 && 1 ≤ day && day ≤ daysInMonth year month
          && hour ≤ 23 && minute ≤ 59 && second ≤ 59 then
        some (String.mk [y1, y2, y3, y4, '-', m1, m2, '-', d1, d2])
      else none
    else none
  | _ => none

/-- Lines 62-63: `datetime.strptime(pub_date_str, ...).strftime("%Y-%m-%d")`
applied to the (possibly `None`) text of `./atom:published`:
`strptime(None, fmt)` raises `TypeError`, an unparseable string raises
`ValueError`. -/
def strptimeYmd (s : Option String) : Except PyError String :=
  match s with
  | none => .error .typeError
  | some str =>
    match parsePubDate str with
    | none => .error .valueError
    | some d => .ok d

/-- Body of the entry loop of `search_arxiv_papers` (lines 59-96):
normalizes one raw entry. `.ok none` models the `continue` that skips an
entry whose publication date differs from the target date; `.error e`
models a Python exception propagating out of the loop (no handler inside
the loop catches any of them). -/
def processEntry (target_date : String) (entry : RawEntry) :
    Except PyError (Option Paper) := do
  let pub_date_str ← findText entry.published
  let pub_date ← strptimeYmd pub_date_str
  if pub_date ≠ target_date then
    return none
  let title ← findTextStrip entry.title
  let summary ← findTextStrip entry.summary
  let url ← findTextStrip entry.idUrl
  let arxiv_id := (pySplit url '/').getLastD ""
  let authors ← entry.authors.mapM findTextStrip
  let comments ← match entry.comment with
    | none => pure none
    | some none => Except.error PyError.attributeError
    | some (some s) => pure (some (pyStrip s))
  return some {
    title := title, authors := authors, url := url, arxiv_id := arxiv_id,
    pub_date := pub_date, summary := summary, categories := entry.categories,
    comments := comments, summary_zh := none, contribution := none }

/-- The `for entry in entries` loop of `search_arxiv_papers` (lines
59-96), accumulating the normalized papers with `papers.append`; a Python
exception raised while processing one entry escapes the loop (no handler
inside it catches any). -/
def entriesLoop (target_date : String) : List RawEntry → List Paper →
    Except PyError (List Paper)
  | [], acc => .ok acc
  | e :: rest, acc => do
    match ← processEntry target_date e with
    | none => entriesLoop target_date rest acc
    | some p => entriesLoop target_date rest (acc ++ [p])

/-- `search_arxiv_papers(search_term, target_date, max_results)` (lines
24-106).  The network and XML layer is the oracle
`fetch : attempt → offset → FetchResult`; the source performs exactly one
`requests.get`, with `start=0` hard-coded in the query string and no retry
loop, so only `fetch 0 0` is ever consulted.  `RequestException` and
`ET.ParseError` are caught and yield `[]`; exceptions raised while
processing entries propagate to the caller. -/
def search_arxiv_papers (fetch : Nat → Nat → FetchResult) (target_date : String) :
    Except PyError (List Paper) :=
  match fetch 0 0 with
  | .transportError => .ok []
  | .parseError => .ok []
  | .ok entries => entriesLoop target_date entries []

/-- The prompt template of the first `process_with_openai` call (line 212). -/
def zhTemplate : String := "将以下英文论文摘要翻译为中文，保持专业术语不变:\n{text}"

/-- The prompt template of the second `process_with_openai` call (line 220). -/
def contributionTemplate : String := "用一句中文说明论文的核心贡献，格式：方法+效果:\n{text}"

/-- Replace every occurrence of the non-empty pattern `pat` by `repl`,
scanning left to right; `fuel` bounds the scan (used with the input's
length, which suffices since each step consumes at least one character). -/
def replaceList (pat repl : List Char) : Nat → List Char → List Char
  | _, [] => []
  | 0, s => s
  | fuel + 1, c :: rest =>
    if pat.isPrefixOf (c :: rest) then
      repl ++ replaceList pat repl fuel (List.drop (pat.length - 1) rest)
    else
      c :: replaceList pat repl fuel rest

/-- `prompt_template.format(text=text)` (line 112) for the templates above,
whose only placeholder is `{text}`: substitutes `text` for the placeholder. -/
def formatTemplate (template text : String) : String :=
  String.mk (replaceList "{text}".toList text.toList template.length template.toList)

/-- `process_with_openai(text, prompt_template, ...)` (lines 109-127).  The
OpenAI client is the oracle `api : prompt → Option String`, where `none`
models any exception raised by the call; the `except Exception` handler
turns every failure into `None`, and a successful completion is stripped. -/
def process_with_openai (api : String → Option String) (text prompt_template : String) :
    Option String :=
  (api (formatTemplate prompt_template text)).map pyStrip

/-- The two enrichment assignments of the `__main__` loop (lines 210-224):
`paper['summary_zh'] = ...` then `paper['contribution'] = ...`. -/
def enrichPaper (api : String → Option String) (p : Paper) : Paper :=
  { p with
    summary_zh := process_with_openai api p.summary zhTemplate,
    contribution := process_with_openai api p.summary contributionTemplate }

/-- Python dict assignment `m[k] = v` on an insertion-ordered dict modelled
as an association list: an existing binding for `k` is replaced in place
(a dict holds at most one binding per key), a new key is appended at the
end. -/
def dictInsert {α : Type} : List (String × α) → String → α → List (String × α)
  | [], k, v => [(k, v)]
  | a :: t, k, v => if a.1 == k then (k, v) :: t else a :: dictInsert t k v

/-- Python dict lookup `m.get(k)` on the same model. -/
def dictLookup {α : Type} (m : List (String × α)) (k : String) : Option α :=
  (m.find? (fun kv => kv.1 == k)).map Prod.snd

/-- The inner `for paper in papers` loop of `__main__` (lines 208-226):
each paper is enriched by two AI calls and then stored with
`all_papers[paper['arxiv_id']] = paper`. -/
def mergePapers (api : String → Option String) (papers : List Paper)
    (all : List (String × Paper)) : List (String × Paper) :=
  papers.foldl (fun all paper =>
    let paper := enrichPaper api paper
    dictInsert all paper.arxiv_id paper) all

/-- The outer `for term in config['search_terms']` loop of `__main__`
(lines 204-226), carrying the `all_papers` dict.  `fetchFor term` is the
network oracle used by `search_arxiv_papers` for that term.  An uncaught
exception inside `search_arxiv_papers` aborts the run (`Except.error`). -/
def mainLoop (fetchFor : String → Nat → Nat → FetchResult)
    (api : String → Option String) (target_date : String) :
    List String → List (String × Paper) → Except PyError (List (String × Paper))
  | [], all => .ok all
  | term :: rest, all => do
    let papers ← search_arxiv_papers (fetchFor term) target_date
    mainLoop fetchFor api target_date rest (mergePapers api papers all)

/-- The whole `__main__` retrieval-and-merge phase (lines 200-226):
`all_papers = {}` followed by the keyword loop. -/
def runMain (terms : List String) (fetchFor : String → Nat → Nat → FetchResult)
    (api : String → Option String) (target_date : String) :
    Except PyError (List (String × Paper)) :=
  mainLoop fetchFor api target_date terms []

deriving instance DecidableEq for Except

/-- A well-formed entry published 2024-03-15, id `2403.01234v1`. -/
def entryA : RawEntry := {
  published := some (some "2024-03-15T12:00:00Z"),
  title := some (some " Paper A "),
  summary := some (some "Summary A"),
  idUrl := some (some "http://arxiv.org/abs/2403.01234v1"),
  authors := [some (some "Alice")],
  categories := [some "cs.LG"],
  comment := none }

/-- The record `entryA` normalizes to for target date 2024-03-15. -/
def paperA : Paper := {
  title := "Paper A", authors := ["Alice"],
  url := "http://arxiv.org/abs/2403.01234v1", arxiv_id := "2403.01234v1",
  pub_date := "2024-03-15", summary := "Summary A",
  categories := [some "cs.LG"], comments := none,
  summary_zh := none, contribution := none }

/-- A second well-formed entry with the same publication date as `entryA`
but a different identifier, `2403.09999v2`. -/
def entryB : RawEntry := {
  published := some (some "2024-03-15T08:30:00Z"),
  title := some (some "Paper B"),
  summary := some (some "Summary B"),
  idUrl := some (some "http://arxiv.org/abs/2403.09999v2"),
  authors := [some (some "Bob"), some (some "Carol")],
  categories := [some "cs.CL"],
  comment := some (some "10 pages") }

/-- The record `entryB` normalizes to for target date 2024-03-15. -/
def paperB : Paper := {
  title := "Paper B", authors := ["Bob", "Carol"],
  url := "http://arxiv.org/abs/2403.09999v2", arxiv_id := "2403.09999v2",
  pub_date := "2024-03-15", summary := "Summary B",
  categories := [some "cs.CL"], comments := some "10 pages",
  summary_zh := none, contribution := none }

/-- A variant of `entryA` as a second keyword would fetch it: the same
paper (same id URL, same date) with a different title text. -/
def entryA2 : RawEntry := {
  published := some (some "2024-03-15T12:00:00Z"),
  title := some (some "Paper A (variant)"),
  summary := some (some "Summary A"),
  idUrl := some (some "http://arxiv.org/abs/2403.01234v1"),
  authors := [some (some "Alice")],
  categories := [some "cs.LG"],
  comment := none }

/-- The record `entryA2` normalizes to for target date 2024-03-15:
same identifier as `paperA`, different title. -/
def paperA2 : Paper := {
  title := "Paper A (variant)", authors := ["Alice"],
  url := "http://arxiv.org/abs/2403.01234v1", arxiv_id := "2403.01234v1",
  pub_date := "2024-03-15", summary := "Summary A",
  categories := [some "cs.LG"], comments := none,
  summary_zh := none, contribution := none }

/-- An entry whose `<published>` element is absent. -/
def entryBadDate : RawEntry := {
  published := none,
  title := some (some "Bad date"),
  summary := some (some "S"),
  idUrl := some (some "http://arxiv.org/abs/9999.00000v1"),
  authors := [],
  categories := [],
  comment := none }

/-- An entry with a valid matching date but no `<title>` element. -/
def entryNoTitle : RawEntry := {
  published := some (some "2024-03-15T12:00:00Z"),
  title := none,
  summary := some (some "S"),
  idUrl := some (some "http://arxiv.org/abs/1111.11111v1"),
  authors := [],
  categories := [],
  comment := none }

/-- An entry with a valid matching date and title but no `<summary>`
element. -/
def entryNoSummary : RawEntry := {
  published := some (some "2024-03-15T12:00:00Z"),
  title := some (some "T"),
  summary := none,
  idUrl := some (some "http://arxiv.org/abs/2222.22222v1"),
  authors := [],
  categories := [],
  comment := none }

/-- A fetcher stub programmed to fail its first two attempts with a
transport error and to succeed from the third attempt on. -/
def fetchFail2 : Nat → Nat → FetchResult := fun attempt _ =>
  if attempt < 2 then .transportError else .ok [entryA]

/-- A server with two non-empty pages: `entryA` at offset 0, `entryB` at
offset 1, and no further results. -/
def fetchPages : Nat → Nat → FetchResult := fun _ offset =>
  if offset == 0 then .ok [entryA]
  else if offset == 1 then .ok [entryB]
  else .ok []

/-- Two keywords that both match the same paper: keyword `t1` fetches
`entryA`, every other keyword fetches the variant `entryA2`. -/
def fetchFor12 : String → Nat → Nat → FetchResult := fun term _ _ =>
  if term == "t1" then .ok [entryA] else .ok [entryA2]

/-- An AI oracle that always fails (every call raises). -/
def apiNone : String → Option String := fun _ => none

/-- Spec 4.2 step 3: "Extract identifier by taking the last path segment
of the entry's canonical id URL" — the segment after the last slash. -/
def lastPathSegment (url : String) : String :=
  (pySplit url '/').getLastD ""

/-- Invariant of the shared `all_papers` dict: each binding's key is the
stored paper's identifier and the stored paper carries the target date. -/
def GoodPair (target : String) (kv : String × Paper) : Prop :=
  kv.1 = kv.2.arxiv_id ∧ kv.2.pub_date = target

/-- Inversion for a successful `Except` bind. -/
theorem bindOk_inv {ε α β : Type} {m : Except ε α} {k : α → Except ε β} {r : β}
    (h : m >>= k = .ok r) : ∃ a, m = .ok a ∧ k a = .ok r := by
  cases m with
  | error e => simp [Bind.bind, Except.bind] at h
  | ok a => exact ⟨a, rfl, h⟩

/-- Inversion of a successful normalization: the produced record's
publication date is exactly the target date, its identifier is the last
path segment of its url field, and enrichment fields start out empty. -/
theorem processEntry_inv {target : String} {e : RawEntry} {p : Paper}
    (h : processEntry target e = .ok (some p)) :
    p.pub_date = target ∧ p.arxiv_id = lastPathSegment p.url
      ∧ p.summary_zh = none ∧ p.contribution = none := by
  unfold processEntry at h
  obtain ⟨pds, h1, h⟩ := bindOk_inv h
  obtain ⟨pd, h2, h⟩ := bindOk_inv h
  by_cases hpd : pd = target
  · simp only [hpd, ne_eq, not_true_eq_false, if_false, ite_false] at h
    obtain ⟨u, hu, h⟩ := bindOk_inv h
    obtain ⟨title, h3, h⟩ := bindOk_inv h
    obtain ⟨summary, h4, h⟩ := bindOk_inv h
    obtain ⟨url, h5, h⟩ := bindOk_inv h
    obtain ⟨authors, h6, h⟩ := bindOk_inv h
    cases hc : e.comment with
    | none =>
      rw [hc] at h
      simp only [Bind.bind, Except.bind, pure, Except.pure, Except.ok.injEq,
        Option.some.injEq] at h
      subst h
      simp [lastPathSegment]
    | some t =>
      cases t with
      | none => rw [hc] at h; simp [Bind.bind, Except.bind, pure, Except.pure] at h
      | some s =>
        rw [hc] at h
        simp only [Bind.bind, Except.bind, pure, Except.pure, Except.ok.injEq,
          Option.some.injEq] at h
        subst h
        simp [lastPathSegment]
  · simp [hpd, pure, Except.pure] at h

/-- Every paper produced by the entry loop either was already in the
accumulator or is the successful normalization of some fetched entry. -/
theorem entriesLoop_ok_mem {target : String} :
    ∀ {entries : List RawEntry} {acc papers : List Paper},
      entriesLoop target entries acc = .ok papers →
      ∀ p ∈ papers, p ∈ acc ∨ ∃ e, processEntry target e = .ok (some p) := by
  intro entries
  induction entries with
  | nil =>
    intro acc papers h p hp
    simp only [entriesLoop, Except.ok.injEq] at h
    subst h
    exact Or.inl hp
  | cons e rest ih =>
    intro acc papers h p hp
    simp only [entriesLoop] at h
    cases hpe : processEntry target e with
    | error err => rw [hpe] at h; simp [Bind.bind, Except.bind] at h
    | ok r =>
      rw [hpe] at h
      simp only [Bind.bind, Except.bind] at h
      cases r with
      | none => exact ih h p hp
      | some q =>
        rcases ih h p hp with hmem | hex
        · rcases List.mem_append.mp hmem with hacc | hq
          · exact Or.inl hacc
          · right
            refine ⟨e, ?_⟩
            rw [List.mem_singleton.mp hq]
            exact hpe
        · exact Or.inr hex

/-- Every paper returned by `search_arxiv_papers` is the successful
normalization of some fetched entry. -/
theorem search_ok_mem {fetch : Nat → Nat → FetchResult} {target : String}
    {papers : List Paper} (h : search_arxiv_papers fetch target = .ok papers) :
    ∀ p ∈ papers, ∃ e, processEntry target e = .ok (some p) := by
  intro p hp
  unfold search_arxiv_papers at h
  cases hf : fetch 0 0 with
  | transportError =>
    rw [hf] at h
    simp only [Except.ok.injEq] at h
    subst h
    simp at hp
  | parseError =>
    rw [hf] at h
    simp only [Except.ok.injEq] at h
    subst h
    simp at hp
  | ok entries =>
    rw [hf] at h
    rcases entriesLoop_ok_mem h p hp with habs | hex
    · simp at habs
    · exact hex

/-- Membership after a dict assignment: an element of `dictInsert m k v` is
an element of `m` or the new binding `(k, v)`. -/
theorem dictInsert_mem {α : Type} : ∀ {m : List (String × α)} {k : String} {v : α}
    {kv : String × α}, kv ∈ dictInsert m k v → kv ∈ m ∨ kv = (k, v) := by
  intro m
  induction m with
  | nil =>
    intro k v kv h
    simp only [dictInsert, List.mem_singleton] at h
    exact Or.inr h
  | cons a t ih =>
    intro k v kv h
    by_cases ha : (a.1 == k) = true
    · rw [dictInsert, if_pos ha] at h
      rcases List.mem_cons.mp h with hnew | ht
      · exact Or.inr hnew
      · exact Or.inl (List.mem_cons_of_mem a ht)
    · rw [dictInsert, if_neg ha] at h
      rcases List.mem_cons.mp h with hhead | ht
      · exact Or.inl (hhead ▸ List.mem_cons_self a t)
      · rcases ih ht with hmem | hnew
        · exact Or.inl (List.mem_cons_of_mem a hmem)
        · exact Or.inr hnew

/-- After `m[k] = v`, looking up `k` yields `v` (the newest binding wins). -/
theorem dictLookup_dictInsert_self {α : Type} : ∀ (m : List (String × α)) (k : String)
    (v : α), dictLookup (dictInsert m k v) k = some v := by
  intro m
  induction m with
  | nil => intro k v; simp [dictInsert, dictLookup, List.find?]
  | cons a t ih =>
    intro k v
    by_cases ha : (a.1 == k) = true
    · rw [dictInsert, if_pos ha]
      simp [dictLookup, List.find?]
    · rw [dictInsert, if_neg ha]
      have ha1 : (a.1 == k) = false := by simpa using ha
      simp only [dictLookup, List.find?, ha1]
      exact ih k v

/-- A dict assignment does not change the binding of any other key. -/
theorem dictLookup_dictInsert_ne {α : Type} : ∀ (m : List (String × α)) {k k1 : String}
    (v : α), k1 ≠ k → dictLookup (dictInsert m k v) k1 = dictLookup m k1 := by
  intro m
  induction m with
  | nil =>
    intro k k1 v hne
    have hk : (k == k1) = false := by
      simp only [beq_eq_false_iff_ne, ne_eq]
      exact fun hh => hne hh.symm
    simp [dictInsert, dictLookup, List.find?, hk]
  | cons a t ih =>
    intro k k1 v hne
    by_cases ha : (a.1 == k) = true
    · rw [dictInsert, if_pos ha]
      have hak : a.1 = k := by simpa using ha
      have hk : (k == k1) = false := by
        simp only [beq_eq_false_iff_ne, ne_eq]
        exact fun hh => hne hh.symm
      have ha1 : (a.1 == k1) = false := by rw [hak]; exact hk
      simp [dictLookup, List.find?, hk, ha1]
    · rw [dictInsert, if_neg ha]
      by_cases ha1 : (a.1 == k1) = true
      · simp [dictLookup, List.find?, ha1]
      · have ha1f : (a.1 == k1) = false := by simpa using ha1
        simp only [dictLookup, List.find?, ha1f]
        exact ih v hne

/-- A dict assignment never removes a key: a key bound in `m` is still
bound after `m[k] = v`. -/
theorem dictLookup_dictInsert_isSome {α : Type} (m : List (String × α))
    (k k1 : String) (v : α) (h : dictLookup m k1 ≠ none) :
    dictLookup (dictInsert m k v) k1 ≠ none := by
  by_cases hk : k1 = k
  · rw [hk, dictLookup_dictInsert_self]; simp
  · rw [dictLookup_dictInsert_ne m v hk]; exact h

/-- Dict assignment preserves distinctness of the stored keys. -/
theorem dictInsert_keys_nodup {α : Type} : ∀ {m : List (String × α)} (k : String)
    (v : α), (m.map Prod.fst).Nodup → ((dictInsert m k v).map Prod.fst).Nodup := by
  intro m
  induction m with
  | nil => intro k v _; simp [dictInsert]
  | cons a t ih =>
    intro k v hnd
    simp only [List.map_cons, List.nodup_cons] at hnd
    by_cases ha : (a.1 == k) = true
    · rw [dictInsert, if_pos ha]
      have hak : a.1 = k := by simpa using ha
      simp only [List.map_cons, List.nodup_cons]
      exact ⟨hak ▸ hnd.1, hnd.2⟩
    · rw [dictInsert, if_neg ha]
      simp only [List.map_cons, List.nodup_cons]
      refine ⟨?_, ih k v hnd.2⟩
      intro hmem
      rcases List.mem_map.mp hmem with ⟨kv, hkv, hfst⟩
      rcases dictInsert_mem hkv with hm | hnew
      · exact hnd.1 (List.mem_map.mpr ⟨kv, hm, hfst⟩)
      · rw [hnew] at hfst
        simp only at hfst
        refine absurd ?_ ha
        simp only [beq_iff_eq]
        exact hfst.symm

/-- Two entries of a dict with distinct keys cannot share a key. -/
theorem keys_nodup_inj {α : Type} {m : List (String × α)}
    (hnd : (m.map Prod.fst).Nodup) {r1 r2 : String × α} (h1 : r1 ∈ m) (h2 : r2 ∈ m)
    (hk : r1.1 = r2.1) : r1 = r2 :=
  List.inj_on_of_nodup_map hnd h1 h2 hk

/-- Enrichment (lines 210-224) only fills the two AI fields; the
identifier is untouched. -/
theorem enrichPaper_arxiv_id (api : String → Option String) (p : Paper) :
    (enrichPaper api p).arxiv_id = p.arxiv_id := rfl

/-- Enrichment only fills the two AI fields; the publication date is
untouched. -/
theorem enrichPaper_pub_date (api : String → Option String) (p : Paper) :
    (enrichPaper api p).pub_date = p.pub_date := rfl

/-- Every binding produced by the merge loop is either a binding of the
incoming dict or the enrichment of one of the new papers, stored under its
own identifier. -/
theorem mergePapers_mem {api : String → Option String} : ∀ {papers : List Paper}
    {all : List (String × Paper)} {kv : String × Paper},
    kv ∈ mergePapers api papers all →
    kv ∈ all ∨ ∃ p ∈ papers, kv = (p.arxiv_id, enrichPaper api p) := by
  intro papers
  induction papers with
  | nil =>
    intro all kv h
    simp only [mergePapers, List.foldl_nil] at h
    exact Or.inl h
  | cons p ps ih =>
    intro all kv h
    simp only [mergePapers, List.foldl_cons] at h
    rcases ih h with hin | ⟨q, hq, hkv⟩
    · rcases dictInsert_mem hin with hall | hnew
      · exact Or.inl hall
      · exact Or.inr ⟨p, List.mem_cons_self p ps, hnew⟩
    · exact Or.inr ⟨q, List.mem_cons_of_mem p hq, hkv⟩

/-- The merge loop preserves distinctness of the stored keys. -/
theorem mergePapers_keys_nodup {api : String → Option String} : ∀ {papers : List Paper}
    {all : List (String × Paper)}, (all.map Prod.fst).Nodup →
    ((mergePapers api papers all).map Prod.fst).Nodup := by
  intro papers
  induction papers with
  | nil => intro all h; simpa [mergePapers] using h
  | cons p ps ih =>
    intro all h
    simp only [mergePapers, List.foldl_cons]
    exact ih (dictInsert_keys_nodup _ _ h)

/-- The merge loop never removes a bound key. -/
theorem mergePapers_preserves_key {api : String → Option String} : ∀ {papers : List Paper}
    {all : List (String × Paper)} {k : String}, dictLookup all k ≠ none →
    dictLookup (mergePapers api papers all) k ≠ none := by
  intro papers
  induction papers with
  | nil => intro all k h; simpa [mergePapers] using h
  | cons p ps ih =>
    intro all k h
    simp only [mergePapers, List.foldl_cons]
    exact ih (dictLookup_dictInsert_isSome _ _ _ _ h)

/-- Every fetched paper ends up bound in the merged dict (under its
identifier), whatever the AI oracle does. -/
theorem mergePapers_binds {api : String → Option String} : ∀ {papers : List Paper}
    {all : List (String × Paper)} {p : Paper}, p ∈ papers →
    dictLookup (mergePapers api papers all) p.arxiv_id ≠ none := by
  intro papers
  induction papers with
  | nil => intro all p h; simp at h
  | cons q ps ih =>
    intro all p h
    rcases List.mem_cons.mp h with hq | hps
    · subst hq
      simp only [mergePapers, List.foldl_cons]
      refine mergePapers_preserves_key ?_
      rw [show (enrichPaper api p).arxiv_id = p.arxiv_id from rfl] at *
      rw [dictLookup_dictInsert_self]
      simp
    · simp only [mergePapers, List.foldl_cons]
      exact ih hps

/-- The keyword loop preserves the `GoodPair` invariant of the dict. -/
theorem mainLoop_good {fetchFor : String → Nat → Nat → FetchResult}
    {api : String → Option String} {target : String} : ∀ {terms : List String}
    {acc m : List (String × Paper)},
    (∀ kv ∈ acc, GoodPair target kv) →
    mainLoop fetchFor api target terms acc = .ok m →
    ∀ kv ∈ m, GoodPair target kv := by
  intro terms
  induction terms with
  | nil =>
    intro acc m hacc h
    simp only [mainLoop, Except.ok.injEq] at h
    subst h
    exact hacc
  | cons t rest ih =>
    intro acc m hacc h
    simp only [mainLoop] at h
    cases hs : search_arxiv_papers (fetchFor t) target with
    | error err => rw [hs] at h; simp [Bind.bind, Except.bind] at h
    | ok papers =>
      rw [hs] at h
      simp only [Bind.bind, Except.bind] at h
      refine ih ?_ h
      intro kv hkv
      rcases mergePapers_mem hkv with hin | ⟨p, hp, hkv'⟩
      · exact hacc kv hin
      · subst hkv'
        obtain ⟨e, he⟩ := search_ok_mem hs p hp
        obtain ⟨hdate, -, -, -⟩ := processEntry_inv he
        exact ⟨rfl, hdate⟩

/-- The keyword loop preserves distinctness of the dict's keys. -/
theorem mainLoop_nodup {fetchFor : String → Nat → Nat → FetchResult}
    {api : String → Option String} {target : String} : ∀ {terms : List String}
    {acc m : List (String × Paper)},
    (acc.map Prod.fst).Nodup →
    mainLoop fetchFor api target terms acc = .ok m →
    (m.map Prod.fst).Nodup := by
  intro terms
  induction terms with
  | nil =>
    intro acc m hacc h
    simp only [mainLoop, Except.ok.injEq] at h
    subst h
    exact hacc
  | cons t rest ih =>
    intro acc m hacc h
    simp only [mainLoop] at h
    cases hs : search_arxiv_papers (fetchFor t) target with
    | error err => rw [hs] at h; simp [Bind.bind, Except.bind] at h
    | ok papers =>
      rw [hs] at h
      simp only [Bind.bind, Except.bind] at h
      exact ih (mergePapers_keys_nodup hacc) h

/-- An entry whose `<published>` element is absent makes normalization
raise `AttributeError` (line 61: `.text` on `None`). -/
theorem processEntry_published_absent {target : String} {e : RawEntry}
    (h : e.published = none) :
    processEntry target e = .error .attributeError := by
  unfold processEntry
  rw [h]
  simp [findText, Bind.bind, Except.bind]

/-- An entry whose `<published>` element is empty makes normalization
raise `TypeError` (line 62: `strptime(None, fmt)`). -/
theorem processEntry_published_empty {target : String} {e : RawEntry}
    (h : e.published = some none) :
    processEntry target e = .error .typeError := by
  unfold processEntry
  rw [h]
  simp [findText, strptimeYmd, Bind.bind, Except.bind]

/-- An entry whose publication timestamp does not parse makes
normalization raise `ValueError` (line 62: `strptime`). -/
theorem processEntry_published_unparseable {target s : String} {e : RawEntry}
    (h1 : e.published = some (some s)) (h2 : parsePubDate s = none) :
    processEntry target e = .error .valueError := by
  unfold processEntry
  rw [h1]
  simp [findText, strptimeYmd, h2, Bind.bind, Except.bind]

/-- A Python exception raised on the first entry aborts the whole entry
loop with that exception; no later entry is processed. -/
theorem entriesLoop_error_head {target : String} {e : RawEntry}
    {rest : List RawEntry} {acc : List Paper} {err : PyError}
    (h : processEntry target e = .error err) :
    entriesLoop target (e :: rest) acc = .error err := by
  simp [entriesLoop, h, Bind.bind, Except.bind]

/-- C6: for every merged collection produced from any keyword list and any
API responses, every record in the collection has its publication date
exactly equal to the single target date requested for the run; records
with any other date are dropped during normalization and never merged. -/
theorem C6_merged_dates {terms : List String}
    {fetchFor : String → Nat → Nat → FetchResult} {api : String → Option String}
    {target : String} {m : List (String × Paper)}
    (h : runMain terms fetchFor api target = .ok m) :
    ∀ kv ∈ m, kv.2.pub_date = target := by
  unfold runMain at h
  intro kv hkv
  exact (mainLoop_good (by simp) h kv hkv).2

/-- Witness for C6 at a concrete run: one keyword fetching `entryA`
produces a collection whose sole record carries the target date. -/
theorem C6_witness : paperA.pub_date = "2024-03-15" :=
  @C6_merged_dates ["t1"] (fun _ _ _ => .ok [entryA]) apiNone "2024-03-15"
    [("2403.01234v1", paperA)] (by decide) ("2403.01234v1", paperA) (by decide)

/-- C7: for every merged collection and every pair of distinct records r1,
r2 in it, r1.id ≠ r2.id: the collection contains at most one record per
distinct paper identifier regardless of how many keywords matched it. -/
theorem C7_unique_ids {terms : List String}
    {fetchFor : String → Nat → Nat → FetchResult} {api : String → Option String}
    {target : String} {m : List (String × Paper)}
    (h : runMain terms fetchFor api target = .ok m) :
    ∀ r1 ∈ m, ∀ r2 ∈ m, r1 ≠ r2 → r1.2.arxiv_id ≠ r2.2.arxiv_id := by
  unfold runMain at h
  intro r1 h1 r2 h2 hne hid
  have hnd := mainLoop_nodup (by simp) h
  have hg := mainLoop_good (by simp) h
  have hk : r1.1 = r2.1 := by rw [(hg r1 h1).1, (hg r2 h2).1, hid]
  exact hne (keys_nodup_inj hnd h1 h2 hk)

/-- Witness for C7 at a concrete run: one keyword fetching `entryA` and
`entryB` produces two records whose identifiers differ. -/
theorem C7_witness : paperA.arxiv_id ≠ paperB.arxiv_id :=
  @C7_unique_ids ["t1"] (fun _ _ _ => .ok [entryA, entryB]) apiNone "2024-03-15"
    [("2403.01234v1", paperA), ("2403.09999v2", paperB)] (by decide)
    ("2403.01234v1", paperA) (by decide) ("2403.09999v2", paperB) (by decide)
    (by decide)

/-- C9: for every normalized entry, the record's identifier equals the
last path segment of the entry's canonical id URL. -/
theorem C9_id_last_segment {target : String} {e : RawEntry} {p : Paper}
    (h : processEntry target e = .ok (some p)) :
    p.arxiv_id = lastPathSegment p.url :=
  (processEntry_inv h).2.1

/-- Witness for C9: the entry whose id URL is
`http://arxiv.org/abs/2403.01234v1` yields id `2403.01234v1`, the last
path segment. -/
theorem C9_witness :
    paperA.arxiv_id = lastPathSegment paperA.url ∧ paperA.arxiv_id = "2403.01234v1" :=
  ⟨@C9_id_last_segment "2024-03-15" entryA paperA (by decide), by decide⟩

/-- C8: for every keyword whose page fetch ultimately fails (transport
failure or unparseable response), the fetch yields an empty sequence of
records and does not raise to its caller; that keyword's pagination ends
and the run continues with the remaining keywords, with the shared
collection unchanged by the failed keyword. -/
theorem C8_failed_fetch (fetchFor : String → Nat → Nat → FetchResult)
    (api : String → Option String) (target t : String) (rest : List String)
    (acc : List (String × Paper))
    (h : fetchFor t 0 0 = .transportError ∨ fetchFor t 0 0 = .parseError) :
    search_arxiv_papers (fetchFor t) target = .ok [] ∧
    mainLoop fetchFor api target (t :: rest) acc = mainLoop fetchFor api target rest acc := by
  have hsearch : search_arxiv_papers (fetchFor t) target = .ok [] := by
    unfold search_arxiv_papers
    rcases h with h | h <;> rw [h]
  refine ⟨hsearch, ?_⟩
  simp only [mainLoop, hsearch, Bind.bind, Except.bind]
  simp [mergePapers]

/-- Witness for C8: with a fetcher that always fails with a transport
error, the first keyword contributes nothing and the run proceeds to the
remaining keyword. -/
theorem C8_witness :
    mainLoop (fun _ => fetchFail2) apiNone "2024-03-15" ["t1", "t2"] []
      = mainLoop (fun _ => fetchFail2) apiNone "2024-03-15" ["t2"] [] :=
  (C8_failed_fetch (fun _ => fetchFail2) apiNone "2024-03-15" "t1" ["t2"] []
    (Or.inl rfl)).2

/-- C10: for every fetched paper, a failure of the AI enrichment call (any
exception) results in the corresponding enrichment field (`summary_zh` or
`contribution`) being set to `None`, and the paper is still inserted into
the merged collection; enrichment failure never drops a paper. -/
theorem C10_enrichment_failure (api : String → Option String)
    (papers : List Paper) (all : List (String × Paper)) (p : Paper)
    (hp : p ∈ papers) :
    (api (formatTemplate zhTemplate p.summary) = none →
      (enrichPaper api p).summary_zh = none) ∧
    (api (formatTemplate contributionTemplate p.summary) = none →
      (enrichPaper api p).contribution = none) ∧
    dictLookup (mergePapers api papers all) p.arxiv_id ≠ none := by
  refine ⟨?_, ?_, mergePapers_binds hp⟩
  · intro h
    simp [enrichPaper, process_with_openai, h]
  · intro h
    simp [enrichPaper, process_with_openai, h]

/-- Witness for C10: with an AI oracle that always fails, the enrichment
fields of `paperA` are `None` and the paper is still bound in the merged
collection. -/
theorem C10_witness :
    (enrichPaper apiNone paperA).summary_zh = none ∧
    (enrichPaper apiNone paperA).contribution = none ∧
    dictLookup (mergePapers apiNone [paperA] []) paperA.arxiv_id ≠ none := by
  obtain ⟨h1, h2, h3⟩ := C10_enrichment_failure apiNone [paperA] [] paperA (by decide)
  exact ⟨h1 rfl, h2 rfl, h3⟩

/-- C1 counterexample: two keywords match the same paper (`entryA` for
`t1`, the variant `entryA2` for `t2`); the merged collection holds the
SECOND keyword's variant, not the one first produced, refuting
first-seen-wins at a concrete input. -/
theorem C1_counterexample :
    runMain ["t1", "t2"] fetchFor12 apiNone "2024-03-15"
      = .ok [("2403.01234v1", paperA2)] ∧
    runMain ["t1"] fetchFor12 apiNone "2024-03-15"
      = .ok [("2403.01234v1", paperA)] ∧
    paperA2 ≠ paperA := by
  refine ⟨by decide, by decide, by decide⟩

/-- C1 (amended): when two records with the same identifier are merged
into the shared collection, the record inserted LAST wins: the dict
assignment `all_papers[paper['arxiv_id']] = paper` overwrites any earlier
binding, so after merging a batch ending in `p` the collection maps
`p`'s identifier to (the enrichment of) `p`, whatever was there before. -/
theorem C1_amended (api : String → Option String) (all : List (String × Paper))
    (papers : List Paper) (p : Paper) :
    dictLookup (mergePapers api (papers ++ [p]) all) p.arxiv_id
      = some (enrichPaper api p) := by
  have hsplit : mergePapers api (papers ++ [p]) all
      = dictInsert (mergePapers api papers all) (enrichPaper api p).arxiv_id
          (enrichPaper api p) := by
    simp [mergePapers, List.foldl_append]
  rw [hsplit, show (enrichPaper api p).arxiv_id = p.arxiv_id from rfl]
  exact dictLookup_dictInsert_self _ _ _

/-- C2 counterexample: a fetcher stub that raises a transport error on its
first two attempts and would succeed on the third; the code performs no
retry, so the fetch returns the empty list instead of the correct entries
`[paperA]`. -/
theorem C2_counterexample :
    fetchFail2 0 0 = .transportError ∧
    fetchFail2 1 0 = .transportError ∧
    fetchFail2 2 0 = .ok [entryA] ∧
    processEntry "2024-03-15" entryA = .ok (some paperA) ∧
    search_arxiv_papers fetchFail2 "2024-03-15" = .ok [] ∧
    ([] : List Paper) ≠ [paperA] := by
  refine ⟨rfl, rfl, rfl, by decide, by decide, by decide⟩

/-- C2 (amended): there is no retry: exactly one fetch attempt is made
(only attempt 0 is ever consulted), and a transport failure or malformed
response on that single attempt makes the fetch return the empty list
immediately. -/
theorem C2_amended (fetch : Nat → Nat → FetchResult) (target : String) :
    (fetch 0 0 = .transportError ∨ fetch 0 0 = .parseError →
      search_arxiv_papers fetch target = .ok []) ∧
    (∀ g : Nat → Nat → FetchResult, g 0 0 = fetch 0 0 →
      search_arxiv_papers g target = search_arxiv_papers fetch target) := by
  constructor
  · intro h
    unfold search_arxiv_papers
    rcases h with h | h <;> rw [h]
  · intro g hg
    unfold search_arxiv_papers
    rw [hg]

/-- Witness for the amended C2 at the concrete fail-twice stub. -/
theorem C2_amended_witness : search_arxiv_papers fetchFail2 "2024-03-15" = .ok [] :=
  (C2_amended fetchFail2 "2024-03-15").1 (Or.inl rfl)

/-- C3 counterexample: a server with a non-empty page at offset 0 and a
further non-empty page at offset 1 holding the date-matching `entryB`;
the code never advances the offset, so `paperB` is missing from the
result even though its page was available before any empty page. -/
theorem C3_counterexample :
    search_arxiv_papers fetchPages "2024-03-15" = .ok [paperA] ∧
    fetchPages 0 1 = .ok [entryB] ∧
    processEntry "2024-03-15" entryB = .ok (some paperB) ∧
    paperB ∉ [paperA] := by
  refine ⟨by decide, rfl, by decide, by decide⟩

/-- C3 (amended): there is no pagination: a single page is fetched at
offset zero (`start=0` is hard-coded), the result depends only on that one
page, and when it arrives it is exactly the normalization of its entries. -/
theorem C3_amended (fetch : Nat → Nat → FetchResult) (target : String) :
    search_arxiv_papers fetch target
      = search_arxiv_papers (fun _ _ => fetch 0 0) target ∧
    (∀ entries, fetch 0 0 = .ok entries →
      search_arxiv_papers fetch target = entriesLoop target entries []) := by
  constructor
  · unfold search_arxiv_papers
    rfl
  · intro entries h
    unfold search_arxiv_papers
    rw [h]

/-- Witness for the amended C3 at the concrete two-page server. -/
theorem C3_amended_witness :
    search_arxiv_papers fetchPages "2024-03-15"
      = entriesLoop "2024-03-15" [entryA] [] :=
  (C3_amended fetchPages "2024-03-15").2 [entryA] rfl

/-- C4 counterexample: a page containing a good entry, an entry with no
`<published>` element, and another good entry; instead of skipping the bad
entry and returning the two good records, the fetch raises
`AttributeError` to its caller. -/
theorem C4_counterexample :
    search_arxiv_papers (fun _ _ => .ok [entryA, entryBadDate, entryB]) "2024-03-15"
      = .error .attributeError ∧
    processEntry "2024-03-15" entryA = .ok (some paperA) ∧
    processEntry "2024-03-15" entryB = .ok (some paperB) := by
  refine ⟨by decide, by decide, by decide⟩

/-- C4 (amended): an entry whose publication timestamp element is absent,
empty, or unparseable is not skipped: normalization raises
(`AttributeError`, `TypeError` or `ValueError` respectively) and the
exception propagates out of `search_arxiv_papers` — none of the page's
records is returned and the remaining entries are not processed. -/
theorem C4_amended (fetch : Nat → Nat → FetchResult) (target : String)
    (bad : RawEntry) (rest : List RawEntry) (h : fetch 0 0 = .ok (bad :: rest)) :
    (bad.published = none →
      search_arxiv_papers fetch target = .error .attributeError) ∧
    (bad.published = some none →
      search_arxiv_papers fetch target = .error .typeError) ∧
    (∀ s, bad.published = some (some s) → parsePubDate s = none →
      search_arxiv_papers fetch target = .error .valueError) := by
  unfold search_arxiv_papers
  rw [h]
  refine ⟨?_, ?_, ?_⟩
  · intro hb
    exact entriesLoop_error_head (processEntry_published_absent hb)
  · intro hb
    exact entriesLoop_error_head (processEntry_published_empty hb)
  · intro s hb hp
    exact entriesLoop_error_head (processEntry_published_unparseable hb hp)

/-- Witness for the amended C4 at the concrete entry with no
`<published>` element. -/
theorem C4_amended_witness :
    search_arxiv_papers (fun _ _ => .ok [entryBadDate]) "2024-03-15"
      = .error .attributeError :=
  (C4_amended (fun _ _ => .ok [entryBadDate]) "2024-03-15" entryBadDate [] rfl).1 rfl

/-- C5 counterexample: an entry with a valid matching date but no
`<title>` element; instead of producing a record with a placeholder
default, normalization raises `AttributeError`, and the exception
propagates out of the fetch. -/
theorem C5_counterexample :
    processEntry "2024-03-15" entryNoTitle = .error .attributeError ∧
    processEntry "2024-03-15" entryNoSummary = .error .attributeError ∧
    search_arxiv_papers (fun _ _ => .ok [entryNoTitle]) "2024-03-15"
      = .error .attributeError := by
  refine ⟨by decide, by decide, by decide⟩

/-- C5 (amended): there is no placeholder default: for a date-matching
entry, a missing or empty `<title>` makes normalization raise
`AttributeError`, and so does a missing or empty `<summary>` when the
title is present; the entry yields an exception, not a record. -/
theorem C5_amended (e : RawEntry) (target s : String)
    (h1 : e.published = some (some s)) (h2 : parsePubDate s = some target) :
    ((e.title = none ∨ e.title = some none) →
      processEntry target e = .error .attributeError) ∧
    (∀ t, e.title = some (some t) → (e.summary = none ∨ e.summary = some none) →
      processEntry target e = .error .attributeError) := by
  constructor
  · intro ht
    unfold processEntry
    rw [h1]
    rcases ht with ht | ht <;>
      simp [findText, strptimeYmd, h2, ht, findTextStrip, Bind.bind, Except.bind,
        pure, Except.pure]
  · intro t ht hs
    unfold processEntry
    rw [h1]
    rcases hs with hs | hs <;>
      simp [findText, strptimeYmd, h2, ht, hs, findTextStrip, Bind.bind, Except.bind,
        pure, Except.pure]

/-- Witness for the amended C5 at the concrete entry with no `<title>`. -/
theorem C5_amended_witness :
    processEntry "2024-03-15" entryNoTitle = .error .attributeError :=
  (C5_amended entryNoTitle "2024-03-15" "2024-03-15T12:00:00Z" rfl (by decide)).1
    (Or.inl rfl)
